import Mathlib

set_option autoImplicit false

/-!
Shallow embedding of `src/windows/native_window.cpp` (the Window Control
Adapter of window_manager_fix).

The C++ class `NativeWindow` holds five mutable fields (`last_state`,
`minimum_size`, `maximum_size`, `g_is_window_fullscreen`,
`g_frame_before_fullscreen`) and translates method-channel invocations into
Win32 calls.  We model:

* the adapter's own fields as `AdapterState`;
* the observable OS-side window state (rectangle, style word, topmost bit,
  last applied show command, title) as `WindowState`, together with the
  environment a call can read (nearest monitor bounds, whether
  `GetWindowRect` succeeds) in `SysState`;
* each Win32 call issued by a method as an `OsCall` event, so the order of
  native calls inside one method is itself an observable (a trace);
* the loosely typed flutter `EncodableMap` argument bag and the C++
  extraction idiom `std::get<T>(args.at(key))`, whose failure modes are the
  exceptions `std::out_of_range` (missing key) and `std::bad_variant_access`
  (wrong variant alternative), both unhandled by this code.

Win32 integer coordinates (`LONG`) are modelled as `Int`; `double` method
arguments as `ℚ` (all values appearing in the claims are exactly
representable, and every C++ arithmetic step used here - division,
multiplication, truncating casts - is exact on them).
-/

namespace NativeWindow

/-- `#define STATE_NORMAL 0` -/
def STATE_NORMAL : Int := 0
/-- `#define STATE_MAXIMIZED 1` -/
def STATE_MAXIMIZED : Int := 1
/-- `#define STATE_MINIMIZED 2` -/
def STATE_MINIMIZED : Int := 2
/-- `#define STATE_FULLSCREEN_ENTERED 3` -/
def STATE_FULLSCREEN_ENTERED : Int := 3

/-- Win32 `SW_HIDE`. -/
def SW_HIDE : Nat := 0
/-- Win32 `SW_NORMAL`. -/
def SW_NORMAL : Nat := 1
/-- Win32 `SW_SHOWMINIMIZED`. -/
def SW_SHOWMINIMIZED : Nat := 2
/-- Win32 `SW_MAXIMIZE`. -/
def SW_MAXIMIZE : Nat := 3
/-- Win32 `SW_SHOW`. -/
def SW_SHOW : Nat := 5
/-- Win32 `SW_RESTORE`. -/
def SW_RESTORE : Nat := 9

/-- Win32 `WS_POPUP`. -/
def WS_POPUP : Nat := 0x80000000
/-- Win32 `WS_VISIBLE`. -/
def WS_VISIBLE : Nat := 0x10000000
/-- Win32 `WS_OVERLAPPEDWINDOW`. -/
def WS_OVERLAPPEDWINDOW : Nat := 0x00CF0000
/-- Win32 `WS_CAPTION`. -/
def WS_CAPTION : Nat := 0x00C00000
/-- The 32-bit mask `~WS_CAPTION` used by `SetTitle`. -/
def NOT_WS_CAPTION : Nat := 0xFFFFFFFF ^^^ WS_CAPTION

/-- Win32 `RECT`: left/top/right/bottom, each a `LONG`. -/
structure Rect where
  left : Int
  top : Int
  right : Int
  bottom : Int
deriving DecidableEq

/-- Win32 `POINT`: x/y, each a `LONG`. -/
structure Point where
  x : Int
  y : Int
deriving DecidableEq

/-- The OS-side observable state of the single top-level window. -/
structure WindowState where
  rect : Rect
  style : Nat
  exTopmost : Bool
  showCmd : Nat
  title : String
deriving DecidableEq

/-- The window plus the environment a call reads: the nearest monitor's
bounds (`MonitorFromWindow`/`GetMonitorInfo`) and whether `GetWindowRect`
succeeds on this window. -/
structure SysState where
  window : WindowState
  monitor : Rect
  rectQueryOk : Bool
deriving DecidableEq

/-- The five mutable fields of the C++ `NativeWindow` object. -/
structure AdapterState where
  last_state : Int
  minimum_size : Point
  maximum_size : Point
  g_is_window_fullscreen : Bool
  g_frame_before_fullscreen : Rect
deriving DecidableEq

/-- A freshly constructed adapter.  Every field initializer of the C++
class is reproduced; `g_frame_before_fullscreen` is declared WITHOUT an
initializer (`RECT g_frame_before_fullscreen;`), so its initial contents
are indeterminate - modelled by the parameter `junk`. -/
def initAdapter (junk : Rect) : AdapterState :=
  { last_state := STATE_NORMAL
    minimum_size := { x := 0, y := 0 }
    maximum_size := { x := -1, y := -1 }
    g_is_window_fullscreen := false
    g_frame_before_fullscreen := junk }

/-- One Win32 call issued by a method body, recorded in order. -/
inductive OsCall
  | getWindowPlacement
  | setWindowPlacement (cmd : Nat)
  | monitorFromWindow
  | getMonitorInfo
  | setWindowLongPtrStyle (v : Nat)
  | getWindowRectCapture
  | setWindowPos (x y cx cy : Int)
  | showWindow (cmd : Nat)
deriving DecidableEq

/-- `SetWindowPos(hwnd, _, x, y, cx, cy, ...)`: the window's new screen
rectangle is `(x, y, x+cx, y+cy)`. -/
def applySetWindowPos (w : WindowState) (x y cx cy : Int) : WindowState :=
  { w with rect := { left := x, top := y, right := x + cx, bottom := y + cy } }

/-- `ShowWindow(hwnd, cmd)`: the model records the applied show command. -/
def applyShowWindow (w : WindowState) (cmd : Nat) : WindowState :=
  { w with showCmd := cmd }

/-- `GetWindowRect`: returns the window rectangle, or fails (in which case
the C++ output parameter is left untouched). -/
def getWindowRect (sys : SysState) : Option Rect :=
  if sys.rectQueryOk then some sys.window.rect else none

/-- C++ `static_cast<LONG>` / `int(...)` on a `double`: truncation toward
zero (exact on the rationals considered here): floor for non-negative
values, ceiling for negative ones. -/
def castToLong (q : ℚ) : Int :=
  if 0 ≤ q then ⌊q⌋ else ⌈q⌉

/-- `flutter::EncodableValue`, restricted to the alternatives this plugin
extracts: `bool`, `double`, `std::string`. -/
inductive EncodableValue
  | b (v : Bool)
  | d (v : ℚ)
  | s (v : String)
deriving DecidableEq

/-- `flutter::EncodableMap` with string keys, as used by every method. -/
def EncodableMap : Type := List (String × EncodableValue)

instance : DecidableEq EncodableMap := by
  unfold EncodableMap
  infer_instance

/-- `args.at(key)` lookup (without the throwing behaviour; see
`getBoolArg` etc. for the exception). -/
def mapAt (m : EncodableMap) (k : String) : Option EncodableValue :=
  match List.find? (fun p => p.1 == k) m with
  | some p => some p.2
  | none => none

/-- The C++ exceptions that unchecked extraction can throw: `args.at`
throws `std::out_of_range` on a missing key, `std::get<T>` throws
`std::bad_variant_access` on a wrong alternative.  Neither is caught
anywhere in this source file. -/
inductive CppException
  | outOfRange
  | badVariantAccess
deriving DecidableEq

/-- `std::get<bool>(args.at(EncodableValue(k)))`. -/
def getBoolArg (m : EncodableMap) (k : String) : Except CppException Bool :=
  match mapAt m k with
  | none => Except.error CppException.outOfRange
  | some (EncodableValue.b v) => Except.ok v
  | some _ => Except.error CppException.badVariantAccess

/-- `std::get<double>(args.at(EncodableValue(k)))`. -/
def getDoubleArg (m : EncodableMap) (k : String) : Except CppException ℚ :=
  match mapAt m k with
  | none => Except.error CppException.outOfRange
  | some (EncodableValue.d v) => Except.ok v
  | some _ => Except.error CppException.badVariantAccess

/-- `std::get<std::string>(args.at(EncodableValue(k)))`. -/
def getStringArg (m : EncodableMap) (k : String) : Except CppException String :=
  match mapAt m k with
  | none => Except.error CppException.outOfRange
  | some (EncodableValue.s v) => Except.ok v
  | some _ => Except.error CppException.badVariantAccess

/-- `IsVisible`: `IsWindowVisible` reports the `WS_VISIBLE` style bit. -/
def IsVisible (sys : SysState) : Bool :=
  (sys.window.style &&& WS_VISIBLE) != 0

/-- `IsMaximized`: `GetWindowPlacement` then compare `showCmd` with
`SW_MAXIMIZE`. -/
def IsMaximized (sys : SysState) : Bool :=
  sys.window.showCmd == SW_MAXIMIZE

/-- `IsMinimized`: compare `showCmd` with `SW_SHOWMINIMIZED`. -/
def IsMinimized (sys : SysState) : Bool :=
  sys.window.showCmd == SW_SHOWMINIMIZED

/-- `IsFullScreen`: `return g_is_window_fullscreen;`. -/
def IsFullScreen (a : AdapterState) : Bool :=
  a.g_is_window_fullscreen

/-- `IsAlwaysOnTop`: reads the `WS_EX_TOPMOST` extended-style bit. -/
def IsAlwaysOnTop (sys : SysState) : Bool :=
  sys.window.exTopmost

/-- `GetTitle`: reads the window text (encoding conversion not modelled). -/
def GetTitle (sys : SysState) : String :=
  sys.window.title

/-- `Maximize`: `GetWindowPlacement`; if `showCmd != SW_MAXIMIZE`, set it
via `SetWindowPlacement`, otherwise no further call. -/
def MaximizeCore (w : WindowState) : WindowState × List OsCall :=
  if w.showCmd ≠ SW_MAXIMIZE then
    ({ w with showCmd := SW_MAXIMIZE },
      [OsCall.getWindowPlacement, OsCall.setWindowPlacement SW_MAXIMIZE])
  else
    (w, [OsCall.getWindowPlacement])

/-- `Unmaximize`: `GetWindowPlacement`; if `showCmd != SW_NORMAL`, set it
via `SetWindowPlacement`, otherwise no further call. -/
def UnmaximizeCore (w : WindowState) : WindowState × List OsCall :=
  if w.showCmd ≠ SW_NORMAL then
    ({ w with showCmd := SW_NORMAL },
      [OsCall.getWindowPlacement, OsCall.setWindowPlacement SW_NORMAL])
  else
    (w, [OsCall.getWindowPlacement])

/-- `Minimize`: `GetWindowPlacement`; if `showCmd != SW_SHOWMINIMIZED`, set
it via `SetWindowPlacement`. -/
def MinimizeCore (w : WindowState) : WindowState × List OsCall :=
  if w.showCmd ≠ SW_SHOWMINIMIZED then
    ({ w with showCmd := SW_SHOWMINIMIZED },
      [OsCall.getWindowPlacement, OsCall.setWindowPlacement SW_SHOWMINIMIZED])
  else
    (w, [OsCall.getWindowPlacement])

/-- `Restore`: `GetWindowPlacement`; if `showCmd != SW_NORMAL`, set it via
`SetWindowPlacement`. -/
def RestoreCore (w : WindowState) : WindowState × List OsCall :=
  if w.showCmd ≠ SW_NORMAL then
    ({ w with showCmd := SW_NORMAL },
      [OsCall.getWindowPlacement, OsCall.setWindowPlacement SW_NORMAL])
  else
    (w, [OsCall.getWindowPlacement])

/-- Body of `SetFullScreen` after argument extraction.  Faithful sequence
of the C++ calls, including their ORDER.  Entering (`isFullScreen`):
`GetWindowPlacement` (result unused), `MonitorFromWindow`,
`GetMonitorInfo`, `SetWindowLongPtr(GWL_STYLE, WS_POPUP | WS_VISIBLE)`,
`GetWindowRect(&g_frame_before_fullscreen)` (on failure the field keeps
its previous - possibly indeterminate - contents), `SetWindowPos` to the
monitor rectangle, `ShowWindow(SW_MAXIMIZE)`.  Note `g_is_window_fullscreen`
is NOT written on this path.  Exiting: `g_is_window_fullscreen = false`,
`SetWindowLongPtr(GWL_STYLE, WS_OVERLAPPEDWINDOW | WS_VISIBLE)`,
`SetWindowPos` from `g_frame_before_fullscreen`, `ShowWindow(SW_RESTORE)`. -/
def SetFullScreenCore (isFullScreen : Bool) (sys : SysState) (a : AdapterState) :
    SysState × AdapterState × List OsCall :=
  if isFullScreen then
    let info := sys.monitor
    let w1 : WindowState := { sys.window with style := WS_POPUP ||| WS_VISIBLE }
    let a1 : AdapterState :=
      { a with g_frame_before_fullscreen :=
          if sys.rectQueryOk then w1.rect else a.g_frame_before_fullscreen }
    let w2 := applySetWindowPos w1 info.left info.top
      (info.right - info.left) (info.bottom - info.top)
    let w3 := applyShowWindow w2 SW_MAXIMIZE
    ({ sys with window := w3 }, a1,
      [OsCall.getWindowPlacement, OsCall.monitorFromWindow, OsCall.getMonitorInfo,
        OsCall.setWindowLongPtrStyle (WS_POPUP ||| WS_VISIBLE),
        OsCall.getWindowRectCapture,
        OsCall.setWindowPos info.left info.top
          (info.right - info.left) (info.bottom - info.top),
        OsCall.showWindow SW_MAXIMIZE])
  else
    let a1 : AdapterState := { a with g_is_window_fullscreen := false }
    let f := a.g_frame_before_fullscreen
    let w1 : WindowState := { sys.window with style := WS_OVERLAPPEDWINDOW ||| WS_VISIBLE }
    let w2 := applySetWindowPos w1 f.left f.top (f.right - f.left) (f.bottom - f.top)
    let w3 := applyShowWindow w2 SW_RESTORE
    ({ sys with window := w3 }, a1,
      [OsCall.getWindowPlacement,
        OsCall.setWindowLongPtrStyle (WS_OVERLAPPEDWINDOW ||| WS_VISIBLE),
        OsCall.setWindowPos f.left f.top (f.right - f.left) (f.bottom - f.top),
        OsCall.showWindow SW_RESTORE])

/-- Body of `GetBounds` after argument extraction: if `GetWindowRect`
succeeds, each physical coordinate is divided by the device pixel ratio;
otherwise the result map stays empty. -/
def GetBoundsCore (dpr : ℚ) (sys : SysState) : EncodableMap :=
  match getWindowRect sys with
  | some rect =>
      [("x", EncodableValue.d ((rect.left : ℚ) / dpr)),
        ("y", EncodableValue.d ((rect.top : ℚ) / dpr)),
        ("width", EncodableValue.d (((rect.right - rect.left : ℤ) : ℚ) / dpr)),
        ("height", EncodableValue.d (((rect.bottom - rect.top : ℤ) : ℚ) / dpr))]
  | none => []

/-- Body of `SetBounds` after argument extraction: `SetWindowPos(hwnd,
HWND_TOP, int(x*dpr), int(y*dpr), int(width*dpr), int(height*dpr),
SWP_SHOWWINDOW)`. -/
def SetBoundsCore (dpr x y width height : ℚ) (sys : SysState) : SysState :=
  let w := applySetWindowPos sys.window (castToLong (x * dpr))
    (castToLong (y * dpr)) (castToLong (width * dpr)) (castToLong (height * dpr))
  { sys with window := w }

/-- Body of `SetMinimumSize` after argument extraction: when
`width >= 0 && height >= 0`, store `static_cast<LONG>(width*dpr)` and
`static_cast<LONG>(height*dpr)` into `minimum_size`; otherwise nothing. -/
def SetMinimumSizeCore (dpr width height : ℚ) (a : AdapterState) : AdapterState :=
  if 0 ≤ width ∧ 0 ≤ height then
    { a with minimum_size :=
        { x := castToLong (width * dpr), y := castToLong (height * dpr) } }
  else
    a

/-- Body of `SetMaximumSize` after argument extraction: same guard and
truncation as `SetMinimumSizeCore`, stored into `maximum_size`. -/
def SetMaximumSizeCore (dpr width height : ℚ) (a : AdapterState) : AdapterState :=
  if 0 ≤ width ∧ 0 ≤ height then
    { a with maximum_size :=
        { x := castToLong (width * dpr), y := castToLong (height * dpr) } }
  else
    a

/-- Body of `SetAlwaysOnTop` after argument extraction: `SetWindowPos` with
`HWND_TOPMOST`/`HWND_NOTOPMOST` and `SWP_NOMOVE | SWP_NOSIZE` (only the
topmost bit changes). -/
def SetAlwaysOnTopCore (flag : Bool) (sys : SysState) : SysState :=
  { sys with window := { sys.window with exTopmost := flag } }

/-- Body of `SetTitle` after argument extraction: `SetWindowText`, then
strip `WS_CAPTION` from the style word. -/
def SetTitleCore (title : String) (sys : SysState) : SysState :=
  let w1 : WindowState := { sys.window with title := title }
  let w2 : WindowState := { w1 with style := w1.style &&& NOT_WS_CAPTION }
  { sys with window := w2 }

/-- The outcome of a full method invocation, as observed by the host.  The
source code only ever produces `ok` or `uncaughtException` (an exception
from unchecked extraction escapes the method and terminates the process);
`invalidArgument` is the structured error the spec postulates and exists in
this type only so that the spec's sentence can be stated and compared. -/
inductive CallResult (α : Type)
  | ok (v : α)
  | invalidArgument
  | uncaughtException (e : CppException)
deriving DecidableEq

/-- Full `SetFullScreen` invocation: extract `isFullScreen` as a `bool`,
then run the body.  An extraction failure escapes as an exception. -/
def SetFullScreen (sys : SysState) (a : AdapterState) (args : EncodableMap) :
    CallResult (SysState × AdapterState) :=
  match getBoolArg args ("isFullScreen") with
  | Except.error e => CallResult.uncaughtException e
  | Except.ok flag =>
      CallResult.ok ((SetFullScreenCore flag sys a).1, (SetFullScreenCore flag sys a).2.1)

/-- Full `GetBounds` invocation: extract `devicePixelRatio` as a `double`,
then run the body. -/
def GetBounds (sys : SysState) (args : EncodableMap) : CallResult EncodableMap :=
  match getDoubleArg args ("devicePixelRatio") with
  | Except.error e => CallResult.uncaughtException e
  | Except.ok dpr => CallResult.ok (GetBoundsCore dpr sys)

/-- Full `SetBounds` invocation: extract `devicePixelRatio`, `x`, `y`,
`width`, `height` in the source's order, then run the body. -/
def SetBounds (sys : SysState) (args : EncodableMap) : CallResult SysState :=
  match getDoubleArg args ("devicePixelRatio") with
  | Except.error e => CallResult.uncaughtException e
  | Except.ok dpr =>
    match getDoubleArg args ("x") with
    | Except.error e => CallResult.uncaughtException e
    | Except.ok x =>
      match getDoubleArg args ("y") with
      | Except.error e => CallResult.uncaughtException e
      | Except.ok y =>
        match getDoubleArg args ("width") with
        | Except.error e => CallResult.uncaughtException e
        | Except.ok width =>
          match getDoubleArg args ("height") with
          | Except.error e => CallResult.uncaughtException e
          | Except.ok height => CallResult.ok (SetBoundsCore dpr x y width height sys)

/-- Full `SetMinimumSize` invocation: extract `devicePixelRatio`, `width`,
`height`, then run the body. -/
def SetMinimumSize (a : AdapterState) (args : EncodableMap) : CallResult AdapterState :=
  match getDoubleArg args ("devicePixelRatio") with
  | Except.error e => CallResult.uncaughtException e
  | Except.ok dpr =>
    match getDoubleArg args ("width") with
    | Except.error e => CallResult.uncaughtException e
    | Except.ok width =>
      match getDoubleArg args ("height") with
      | Except.error e => CallResult.uncaughtException e
      | Except.ok height => CallResult.ok (SetMinimumSizeCore dpr width height a)

/-- Full `SetMaximumSize` invocation. -/
def SetMaximumSize (a : AdapterState) (args : EncodableMap) : CallResult AdapterState :=
  match getDoubleArg args ("devicePixelRatio") with
  | Except.error e => CallResult.uncaughtException e
  | Except.ok dpr =>
    match getDoubleArg args ("width") with
    | Except.error e => CallResult.uncaughtException e
    | Except.ok width =>
      match getDoubleArg args ("height") with
      | Except.error e => CallResult.uncaughtException e
      | Except.ok height => CallResult.ok (SetMaximumSizeCore dpr width height a)

/-- Full `SetAlwaysOnTop` invocation: extract `isAlwaysOnTop` as a `bool`. -/
def SetAlwaysOnTop (sys : SysState) (args : EncodableMap) : CallResult SysState :=
  match getBoolArg args ("isAlwaysOnTop") with
  | Except.error e => CallResult.uncaughtException e
  | Except.ok flag => CallResult.ok (SetAlwaysOnTopCore flag sys)

/-- Full `SetTitle` invocation: extract `title` as a `std::string`. -/
def SetTitle (sys : SysState) (args : EncodableMap) : CallResult SysState :=
  match getStringArg args ("title") with
  | Except.error e => CallResult.uncaughtException e
  | Except.ok title => CallResult.ok (SetTitleCore title sys)

/-- One adapter operation with its (already extracted) arguments.
`Terminate` ends the process and so has no successor state; it is omitted
from sequences. -/
inductive Op
  | focus
  | blur
  | show
  | hide
  | isVisible
  | isMaximized
  | maximize
  | unmaximize
  | isMinimized
  | minimize
  | restore
  | isFullScreen
  | setFullScreen (flag : Bool)
  | getBounds (dpr : ℚ)
  | setBounds (dpr x y width height : ℚ)
  | setMinimumSize (dpr width height : ℚ)
  | setMaximumSize (dpr width height : ℚ)
  | isAlwaysOnTop
  | setAlwaysOnTop (flag : Bool)
  | getTitle
  | setTitle (title : String)
  | startDragging
deriving DecidableEq

/-- The state transition of one operation.  Queries (`IsVisible`,
`IsMaximized`, `IsMinimized`, `IsFullScreen`, `IsAlwaysOnTop`, `GetBounds`,
`GetTitle`) and the no-ops (`Focus`, `Blur`, `StartDragging`) change
neither the adapter fields nor the modelled window state; `Show`/`Hide`
apply a show command; the remaining operations run their cores. -/
def step (op : Op) (s : SysState × AdapterState) : SysState × AdapterState :=
  match op with
  | Op.focus => s
  | Op.blur => s
  | Op.show => ({ s.1 with window := applyShowWindow s.1.window SW_SHOW }, s.2)
  | Op.hide => ({ s.1 with window := applyShowWindow s.1.window SW_HIDE }, s.2)
  | Op.isVisible => s
  | Op.isMaximized => s
  | Op.maximize => ({ s.1 with window := (MaximizeCore s.1.window).1 }, s.2)
  | Op.unmaximize => ({ s.1 with window := (UnmaximizeCore s.1.window).1 }, s.2)
  | Op.isMinimized => s
  | Op.minimize => ({ s.1 with window := (MinimizeCore s.1.window).1 }, s.2)
  | Op.restore => ({ s.1 with window := (RestoreCore s.1.window).1 }, s.2)
  | Op.isFullScreen => s
  | Op.setFullScreen flag =>
      ((SetFullScreenCore flag s.1 s.2).1, (SetFullScreenCore flag s.1 s.2).2.1)
  | Op.getBounds _ => s
  | Op.setBounds dpr x y width height => (SetBoundsCore dpr x y width height s.1, s.2)
  | Op.setMinimumSize dpr width height => (s.1, SetMinimumSizeCore dpr width height s.2)
  | Op.setMaximumSize dpr width height => (s.1, SetMaximumSizeCore dpr width height s.2)
  | Op.isAlwaysOnTop => s
  | Op.setAlwaysOnTop flag => (SetAlwaysOnTopCore flag s.1, s.2)
  | Op.getTitle => s
  | Op.setTitle title => (SetTitleCore title s.1, s.2)
  | Op.startDragging => s

/-- Run a sequence of operations from a state. -/
def runOps (ops : List Op) (s : SysState × AdapterState) : SysState × AdapterState :=
  List.foldl (fun t op => step op t) s ops

/-- `true` exactly for the one operation that assigns the fullscreen flag:
the exit path of `SetFullScreen`. -/
def isExitCall : Op → Bool
  | Op.setFullScreen false => true
  | _ => false

/-- `true` for the operations whose body writes any adapter field. -/
def isAdapterWriter : Op → Bool
  | Op.setFullScreen _ => true
  | Op.setMinimumSize _ _ _ => true
  | Op.setMaximumSize _ _ _ => true
  | _ => false

/-- Recognises the `SetWindowLongPtr(GWL_STYLE, ...)` event in a trace. -/
def isStyleCall : OsCall → Bool
  | OsCall.setWindowLongPtrStyle _ => true
  | _ => false

/-- Recognises the `GetWindowRect(&g_frame_before_fullscreen)` capture
event in a trace. -/
def isCaptureCall : OsCall → Bool
  | OsCall.getWindowRectCapture => true
  | _ => false

/-- A concrete window for witnesses: rectangle (100,100)-(900,700), normal
windowed style, not topmost, normal show state. -/
def sampleWindow : WindowState :=
  { rect := { left := 100, top := 100, right := 900, bottom := 700 }
    style := WS_OVERLAPPEDWINDOW ||| WS_VISIBLE
    exTopmost := false
    showCmd := SW_NORMAL
    title := "app" }

/-- A concrete system state with a 1920x1080 monitor and a succeeding
rectangle query. -/
def sampleSys : SysState :=
  { window := sampleWindow
    monitor := { left := 0, top := 0, right := 1920, bottom := 1080 }
    rectQueryOk := true }

/-- `sampleSys` with a failing `GetWindowRect`. -/
def failSys : SysState :=
  { sampleSys with rectQueryOk := false }

/-- A concrete freshly constructed adapter (uninitialized frame field
arbitrarily holding the zero rectangle here). -/
def sampleAdapter : AdapterState :=
  initAdapter { left := 0, top := 0, right := 0, bottom := 0 }

/-- The enter path leaves `g_is_window_fullscreen` alone and (when the
rectangle query succeeds) captures the current rectangle; the exit path
clears the flag and leaves the captured rectangle alone. -/
theorem setFullScreenCore_adapter (flag : Bool) (sys : SysState) (a : AdapterState) :
    (SetFullScreenCore flag sys a).2.1 =
      (if flag then
        { a with g_frame_before_fullscreen :=
            if sys.rectQueryOk then sys.window.rect else a.g_frame_before_fullscreen }
      else { a with g_is_window_fullscreen := false }) := by
  cases flag <;> simp [SetFullScreenCore]

/-- `SetMinimumSize` touches no adapter field other than `minimum_size`. -/
theorem setMinimumSizeCore_fields (dpr width height : ℚ) (a : AdapterState) :
    (SetMinimumSizeCore dpr width height a).last_state = a.last_state
  ∧ (SetMinimumSizeCore dpr width height a).maximum_size = a.maximum_size
  ∧ (SetMinimumSizeCore dpr width height a).g_is_window_fullscreen
      = a.g_is_window_fullscreen
  ∧ (SetMinimumSizeCore dpr width height a).g_frame_before_fullscreen
      = a.g_frame_before_fullscreen := by
  unfold SetMinimumSizeCore
  split <;> simp

/-- `SetMaximumSize` touches no adapter field other than `maximum_size`. -/
theorem setMaximumSizeCore_fields (dpr width height : ℚ) (a : AdapterState) :
    (SetMaximumSizeCore dpr width height a).last_state = a.last_state
  ∧ (SetMaximumSizeCore dpr width height a).minimum_size = a.minimum_size
  ∧ (SetMaximumSizeCore dpr width height a).g_is_window_fullscreen
      = a.g_is_window_fullscreen
  ∧ (SetMaximumSizeCore dpr width height a).g_frame_before_fullscreen
      = a.g_frame_before_fullscreen := by
  unfold SetMaximumSizeCore
  split <;> simp

/-- Per-operation characterisation of the fullscreen flag: it becomes
`false` on the exit path of `SetFullScreen` and is untouched by every
other operation. -/
theorem step_flag (op : Op) (s : SysState × AdapterState) :
    (step op s).2.g_is_window_fullscreen =
      (if isExitCall op then false else s.2.g_is_window_fullscreen) := by
  cases op with
  | setFullScreen flag =>
      cases flag <;> simp [step, isExitCall, setFullScreenCore_adapter]
  | setMinimumSize dpr width height =>
      simp [step, isExitCall, (setMinimumSizeCore_fields dpr width height s.2).2.2.1]
  | setMaximumSize dpr width height =>
      simp [step, isExitCall, (setMaximumSizeCore_fields dpr width height s.2).2.2.1]
  | _ => simp [step, isExitCall]

/-- Sequence version of `step_flag`. -/
theorem runOps_flag (ops : List Op) (s : SysState × AdapterState) :
    (runOps ops s).2.g_is_window_fullscreen =
      (s.2.g_is_window_fullscreen && !(List.any ops isExitCall)) := by
  induction ops generalizing s with
  | nil => simp [runOps]
  | cons op rest ih =>
      have h1 : runOps (op :: rest) s = runOps rest (step op s) := rfl
      rw [h1, ih (step op s), step_flag]
      cases hE : isExitCall op <;> simp [hE]

/-- No operation assigns `last_state`. -/
theorem step_last_state (op : Op) (s : SysState × AdapterState) :
    (step op s).2.last_state = s.2.last_state := by
  cases op with
  | setFullScreen flag =>
      cases flag <;> simp [step, setFullScreenCore_adapter]
  | setMinimumSize dpr width height =>
      simp [step, (setMinimumSizeCore_fields dpr width height s.2).1]
  | setMaximumSize dpr width height =>
      simp [step, (setMaximumSizeCore_fields dpr width height s.2).1]
  | _ => simp [step]

/-- Sequence version of `step_last_state`. -/
theorem runOps_last_state (ops : List Op) (s : SysState × AdapterState) :
    (runOps ops s).2.last_state = s.2.last_state := by
  induction ops generalizing s with
  | nil => simp [runOps]
  | cons op rest ih =>
      have h1 : runOps (op :: rest) s = runOps rest (step op s) := rfl
      rw [h1, ih (step op s), step_last_state]

/-- C1: `IsFullScreen` returns the internal fullscreen flag; across every
operation the flag is assigned only by `SetFullScreen` on its exit path
(where it is set to `false`) and never set to `true` on the enter path;
hence after `SetFullScreen` with `isFullScreen = true`, `IsFullScreen`
returns exactly what it returned before the call, and over any operation
sequence the flag is the initial flag conjoined with the absence of an
exit call. -/
theorem isFullScreen_flag_only_written_on_exit (sys : SysState) (a : AdapterState)
    (op : Op) (ops : List Op) :
    (IsFullScreen a = a.g_is_window_fullscreen)
  ∧ ((step op (sys, a)).2.g_is_window_fullscreen =
      (if isExitCall op then false else a.g_is_window_fullscreen))
  ∧ ((step (Op.setFullScreen true) (sys, a)).2.g_is_window_fullscreen
      = a.g_is_window_fullscreen)
  ∧ (IsFullScreen (step (Op.setFullScreen true) (sys, a)).2 = IsFullScreen a)
  ∧ ((runOps ops (sys, a)).2.g_is_window_fullscreen
      = (a.g_is_window_fullscreen && !(List.any ops isExitCall))) := by
  refine ⟨rfl, step_flag op (sys, a), ?_, ?_, runOps_flag ops (sys, a)⟩
  · simpa [isExitCall] using step_flag (Op.setFullScreen true) (sys, a)
  · simpa [IsFullScreen, isExitCall] using step_flag (Op.setFullScreen true) (sys, a)

/-- C10: the only operations writing any adapter field are `SetMinimumSize`
(`minimum_size`), `SetMaximumSize` (`maximum_size`) and `SetFullScreen`
(fullscreen flag and pre-fullscreen rectangle); every other operation —
including all queries — leaves the adapter record unchanged; `last_state`
is never assigned by any operation, so over any sequence from a fresh
adapter it stays `STATE_NORMAL`. -/
theorem adapter_state_frame (op : Op) (sys : SysState) (a : AdapterState)
    (ops : List Op) (junk : Rect) :
    ((step op (sys, a)).2.last_state = a.last_state)
  ∧ ((runOps ops (sys, a)).2.last_state = a.last_state)
  ∧ ((runOps ops (sys, initAdapter junk)).2.last_state = STATE_NORMAL)
  ∧ (isAdapterWriter op = true ∨ (step op (sys, a)).2 = a)
  ∧ ((step op (sys, a)).2.minimum_size = a.minimum_size
      ∨ ∃ q1 q2 q3, op = Op.setMinimumSize q1 q2 q3)
  ∧ ((step op (sys, a)).2.maximum_size = a.maximum_size
      ∨ ∃ q1 q2 q3, op = Op.setMaximumSize q1 q2 q3)
  ∧ (((step op (sys, a)).2.g_is_window_fullscreen = a.g_is_window_fullscreen
        ∧ (step op (sys, a)).2.g_frame_before_fullscreen
            = a.g_frame_before_fullscreen)
      ∨ ∃ b, op = Op.setFullScreen b) := by
  refine ⟨step_last_state op (sys, a), runOps_last_state ops (sys, a), ?_, ?_, ?_, ?_, ?_⟩
  · rw [runOps_last_state ops (sys, initAdapter junk)]
    rfl
  · cases op <;> simp [isAdapterWriter, step]
  · cases op with
    | setMinimumSize q1 q2 q3 => exact Or.inr ⟨q1, q2, q3, rfl⟩
    | setFullScreen flag =>
        cases flag <;>
          simp [step, setFullScreenCore_adapter]
    | setMaximumSize q1 q2 q3 =>
        exact Or.inl (setMaximumSizeCore_fields q1 q2 q3 a).2.1
    | _ => exact Or.inl rfl
  · cases op with
    | setMaximumSize q1 q2 q3 => exact Or.inr ⟨q1, q2, q3, rfl⟩
    | setFullScreen flag =>
        cases flag <;>
          simp [step, setFullScreenCore_adapter]
    | setMinimumSize q1 q2 q3 =>
        exact Or.inl (setMinimumSizeCore_fields q1 q2 q3 a).2.1
    | _ => exact Or.inl rfl
  · cases op with
    | setFullScreen flag => exact Or.inr ⟨flag, rfl⟩
    | setMinimumSize q1 q2 q3 =>
        exact Or.inl ⟨(setMinimumSizeCore_fields q1 q2 q3 a).2.2.1,
          (setMinimumSizeCore_fields q1 q2 q3 a).2.2.2⟩
    | setMaximumSize q1 q2 q3 =>
        exact Or.inl ⟨(setMaximumSizeCore_fields q1 q2 q3 a).2.2.1,
          (setMaximumSizeCore_fields q1 q2 q3 a).2.2.2⟩
    | _ => exact Or.inl ⟨rfl, rfl⟩

/-- After `Maximize` the placement show command is `SW_MAXIMIZE`. -/
theorem maximizeCore_showCmd (w : WindowState) :
    (MaximizeCore w).1.showCmd = SW_MAXIMIZE := by
  unfold MaximizeCore
  split <;> simp_all

/-- After `Unmaximize` the placement show command is `SW_NORMAL`. -/
theorem unmaximizeCore_showCmd (w : WindowState) :
    (UnmaximizeCore w).1.showCmd = SW_NORMAL := by
  unfold UnmaximizeCore
  split <;> simp_all

/-- C8: `Maximize` and `Unmaximize` are idempotent: a second `Maximize`
right after a first one leaves the window state identical and issues no
`SetWindowPlacement` (its trace is the placement read alone), and likewise
for `Unmaximize`; moreover on a window already in the target state the call
performs no placement change at all. -/
theorem maximize_unmaximize_idempotent (w : WindowState) :
    ((MaximizeCore (MaximizeCore w).1).1 = (MaximizeCore w).1)
  ∧ ((MaximizeCore (MaximizeCore w).1).2 = [OsCall.getWindowPlacement])
  ∧ ((UnmaximizeCore (UnmaximizeCore w).1).1 = (UnmaximizeCore w).1)
  ∧ ((UnmaximizeCore (UnmaximizeCore w).1).2 = [OsCall.getWindowPlacement])
  ∧ (w.showCmd ≠ SW_MAXIMIZE
      ∨ MaximizeCore w = (w, [OsCall.getWindowPlacement]))
  ∧ (w.showCmd ≠ SW_NORMAL
      ∨ UnmaximizeCore w = (w, [OsCall.getWindowPlacement])) := by
  have hM := maximizeCore_showCmd w
  have hU := unmaximizeCore_showCmd w
  refine ⟨?_, ?_, ?_, ?_, ?_, ?_⟩
  · conv_lhs => rw [MaximizeCore]
    simp [hM]
  · conv_lhs => rw [MaximizeCore]
    simp [hM]
  · conv_lhs => rw [UnmaximizeCore]
    simp [hU]
  · conv_lhs => rw [UnmaximizeCore]
    simp [hU]
  · by_cases h : w.showCmd = SW_MAXIMIZE
    · exact Or.inr (by rw [MaximizeCore]; simp [h])
    · exact Or.inl h
  · by_cases h : w.showCmd = SW_NORMAL
    · exact Or.inr (by rw [UnmaximizeCore]; simp [h])
    · exact Or.inl h

/-- Rebuilding a rectangle from its left/top corner and its width/height
(the `SetWindowPos` calling convention) gives back the same rectangle. -/
theorem rect_rebuild (f : Rect) :
    ({ left := f.left, top := f.top, right := f.left + (f.right - f.left),
        bottom := f.top + (f.bottom - f.top) } : Rect) = f := by
  cases f with
  | mk l t r b =>
      have h1 : l + (r - l) = r := by omega
      have h2 : t + (b - t) = b := by omega
      simp [h1, h2]

/-- C3: entering fullscreen captures the current rectangle (the rectangle
query succeeding), and exiting immediately afterwards repositions the
window to exactly that rectangle: `SetFullScreen(true)` then
`SetFullScreen(false)` restores the pre-entry x, y, width and height. -/
theorem setFullScreen_roundtrip_restores_rect (sys : SysState) (a : AdapterState)
    (h : sys.rectQueryOk = true) :
    (SetFullScreenCore false (SetFullScreenCore true sys a).1
        (SetFullScreenCore true sys a).2.1).1.window.rect = sys.window.rect := by
  simp only [SetFullScreenCore, if_true, if_false, h,
    applySetWindowPos, applyShowWindow, ite_true, ite_false]
  simp [rect_rebuild sys.window.rect]

/-- C3 witness: the roundtrip theorem applied to the concrete sample
window at (100,100)-(900,700). -/
theorem setFullScreen_roundtrip_restores_rect_witness :
    sampleSys.rectQueryOk = true ∧
    (SetFullScreenCore false (SetFullScreenCore true sampleSys sampleAdapter).1
        (SetFullScreenCore true sampleSys sampleAdapter).2.1).1.window.rect
      = sampleSys.window.rect :=
  ⟨rfl, setFullScreen_roundtrip_restores_rect sampleSys sampleAdapter rfl⟩

/-- C4 counterexample: on the concrete sample state, the enter path of
`SetFullScreen` issues the borderless style switch strictly BEFORE it
captures the window rectangle, so the claimed order (capture first, then
style switch) is false of the code. -/
theorem setFullScreen_enter_order_counterexample :
    (List.findIdx isStyleCall ((SetFullScreenCore true sampleSys sampleAdapter).2.2)
      < List.findIdx isCaptureCall ((SetFullScreenCore true sampleSys sampleAdapter).2.2))
  ∧ ¬ (List.findIdx isCaptureCall ((SetFullScreenCore true sampleSys sampleAdapter).2.2)
      < List.findIdx isStyleCall ((SetFullScreenCore true sampleSys sampleAdapter).2.2)) := by
  decide

/-- C4 (amended): `SetFullScreen(true)` performs, in order: a placement
read, nearest-monitor lookup and monitor-info query, the switch of the
window style to borderless (`WS_POPUP | WS_VISIBLE`), THEN the capture of
the window's current screen rectangle, then the resize/move covering the
monitor's full bounds, then the maximize show-state. -/
theorem setFullScreen_enter_call_order (sys : SysState) (a : AdapterState) :
    (SetFullScreenCore true sys a).2.2 =
      [OsCall.getWindowPlacement, OsCall.monitorFromWindow, OsCall.getMonitorInfo,
        OsCall.setWindowLongPtrStyle (WS_POPUP ||| WS_VISIBLE),
        OsCall.getWindowRectCapture,
        OsCall.setWindowPos sys.monitor.left sys.monitor.top
          (sys.monitor.right - sys.monitor.left) (sys.monitor.bottom - sys.monitor.top),
        OsCall.showWindow SW_MAXIMIZE] := rfl

/-- C9: on a freshly constructed adapter the pre-fullscreen rectangle
field holds its indeterminate initial contents (`junk`), and an exit call
(`SetFullScreen(false)`) made before any entering call repositions the
window to exactly those indeterminate contents - so the restore geometry
is whatever garbage the field happened to hold; only after an entering
call (with a succeeding rectangle query) does the field hold the window's
actual rectangle. -/
theorem fresh_exit_reads_uninitialized_frame (junk : Rect) (sys : SysState) :
    ((initAdapter junk).g_frame_before_fullscreen = junk)
  ∧ ((SetFullScreenCore false sys (initAdapter junk)).1.window.rect = junk)
  ∧ (sys.rectQueryOk = false
      ∨ (SetFullScreenCore true sys (initAdapter junk)).2.1.g_frame_before_fullscreen
          = sys.window.rect) := by
  refine ⟨rfl, ?_, ?_⟩
  · simp only [SetFullScreenCore, if_false, applySetWindowPos, applyShowWindow,
      ite_false]
    simp [initAdapter, rect_rebuild junk]
  · by_cases h : sys.rectQueryOk
    · exact Or.inr (by simp [setFullScreenCore_adapter, h])
    · exact Or.inl (by simpa using h)

/-- C5: on a successful rectangle query, `GetBounds` returns the map with
keys x, y, width, height holding the physical left, top, width and height
each divided by the supplied device pixel ratio. -/
theorem getBounds_divides_by_pixel_scale (sys : SysState) (dpr : ℚ)
    (h : sys.rectQueryOk = true) :
    GetBoundsCore dpr sys =
      [("x", EncodableValue.d ((sys.window.rect.left : ℚ) / dpr)),
        ("y", EncodableValue.d ((sys.window.rect.top : ℚ) / dpr)),
        ("width",
          EncodableValue.d (((sys.window.rect.right - sys.window.rect.left : ℤ) : ℚ) / dpr)),
        ("height",
          EncodableValue.d (((sys.window.rect.bottom - sys.window.rect.top : ℤ) : ℚ) / dpr))] := by
  simp [GetBoundsCore, getWindowRect, h]

/-- C5 witness: the theorem applied at device pixel ratio 2 to the sample
window physically at (100,100,800,600) - i.e. RECT (100,100)-(900,700) -
yields logical (50,50,400,300). -/
theorem getBounds_divides_by_pixel_scale_witness :
    sampleSys.rectQueryOk = true ∧
    GetBoundsCore 2 sampleSys =
      [("x", EncodableValue.d 50), ("y", EncodableValue.d 50),
        ("width", EncodableValue.d 400), ("height", EncodableValue.d 300)] := by
  refine ⟨rfl, ?_⟩
  rw [getBounds_divides_by_pixel_scale sampleSys 2 rfl]
  norm_num [sampleSys, sampleWindow]

/-- C6: if the underlying `GetWindowRect` query fails, `GetBounds` returns
the empty result map, for every device pixel ratio argument. -/
theorem getBounds_empty_on_failure (sys : SysState) (dpr : ℚ)
    (h : sys.rectQueryOk = false) :
    GetBoundsCore dpr sys = ([] : EncodableMap) := by
  simp [GetBoundsCore, getWindowRect, h]

/-- C6 witness: the theorem applied to the sample state whose rectangle
query fails, at device pixel ratio 2. -/
theorem getBounds_empty_on_failure_witness :
    failSys.rectQueryOk = false ∧ GetBoundsCore 2 failSys = ([] : EncodableMap) :=
  ⟨rfl, getBounds_empty_on_failure failSys 2 rfl⟩

/-- C7 counterexample: with devicePixelRatio 1, width 1/2 and height 0
(both non-negative, so the claim predicts the stored pair equals
(width·ratio, height·ratio) = (1/2, 0)), the code stores
`static_cast<LONG>(0.5) = 0`: the stored width is not width·ratio. -/
theorem setMinimumSize_truncates_counterexample :
    ((0 : ℚ) ≤ 1/2 ∧ (0 : ℚ) ≤ 0)
  ∧ ((SetMinimumSizeCore 1 (1/2) 0 sampleAdapter).minimum_size
      = { x := 0, y := 0 })
  ∧ ¬ (((SetMinimumSizeCore 1 (1/2) 0 sampleAdapter).minimum_size.x : ℚ)
      = (1/2 : ℚ) * 1) := by
  have hmin : (SetMinimumSizeCore 1 (1/2) 0 sampleAdapter).minimum_size
      = ({ x := 0, y := 0 } : Point) := by
    simp only [SetMinimumSizeCore]
    rw [if_pos (by norm_num : (0 : ℚ) ≤ 1/2 ∧ (0 : ℚ) ≤ 0)]
    simp only [Point.mk.injEq]
    constructor <;> norm_num [castToLong]
  refine ⟨by norm_num, hmin, ?_⟩
  rw [hmin]
  norm_num

/-- C7 (amended): `SetMinimumSize` (and likewise `SetMaximumSize`) stores
the pair (width·ratio, height·ratio), each component truncated toward zero
to an integer (`static_cast<LONG>`), exactly when both width and height
are non-negative; whenever width or height is negative the previously
stored constraint pair - and the whole adapter record - is left
unchanged, and neither call touches the other constraint pair. -/
theorem setSizeConstraints_store_truncated (a : AdapterState) (dpr width height : ℚ) :
    ((0 ≤ width ∧ 0 ≤ height)
      ∨ (SetMinimumSizeCore dpr width height a = a
          ∧ SetMaximumSizeCore dpr width height a = a))
  ∧ ((¬ (0 ≤ width ∧ 0 ≤ height))
      ∨ ((SetMinimumSizeCore dpr width height a).minimum_size
            = { x := castToLong (width * dpr), y := castToLong (height * dpr) }
          ∧ (SetMaximumSizeCore dpr width height a).maximum_size
            = { x := castToLong (width * dpr), y := castToLong (height * dpr) }))
  ∧ ((SetMinimumSizeCore dpr width height a).maximum_size = a.maximum_size)
  ∧ ((SetMaximumSizeCore dpr width height a).minimum_size = a.minimum_size) := by
  by_cases hc : 0 ≤ width ∧ 0 ≤ height
  · exact ⟨Or.inl hc,
      Or.inr (by simp [SetMinimumSizeCore, SetMaximumSizeCore, hc]),
      (setMinimumSizeCore_fields dpr width height a).2.1,
      (setMaximumSizeCore_fields dpr width height a).2.1⟩
  · exact ⟨Or.inr (by simp [SetMinimumSizeCore, SetMaximumSizeCore, hc]),
      Or.inl hc,
      (setMinimumSizeCore_fields dpr width height a).2.1,
      (setMaximumSizeCore_fields dpr width height a).2.1⟩

/-- `SetFullScreen`: the extraction either succeeds or the call escapes
with the extraction exception; nothing produces `invalidArgument`. -/
theorem setFullScreen_extraction_cases (sys : SysState) (a : AdapterState)
    (args : EncodableMap) :
    ((∃ flag, getBoolArg args ("isFullScreen") = Except.ok flag)
      ∨ ∃ e, SetFullScreen sys a args = CallResult.uncaughtException e)
  ∧ SetFullScreen sys a args ≠ CallResult.invalidArgument := by
  cases h : getBoolArg args ("isFullScreen") with
  | error e =>
      exact ⟨Or.inr ⟨e, by simp [SetFullScreen, h]⟩, by simp [SetFullScreen, h]⟩
  | ok flag =>
      exact ⟨Or.inl ⟨flag, rfl⟩, by simp [SetFullScreen, h]⟩

/-- `GetBounds`: extraction succeeds or the call escapes with the
extraction exception. -/
theorem getBounds_extraction_cases (sys : SysState) (args : EncodableMap) :
    ((∃ q, getDoubleArg args ("devicePixelRatio") = Except.ok q)
      ∨ ∃ e, GetBounds sys args = CallResult.uncaughtException e)
  ∧ GetBounds sys args ≠ CallResult.invalidArgument := by
  cases h : getDoubleArg args ("devicePixelRatio") with
  | error e =>
      exact ⟨Or.inr ⟨e, by simp [GetBounds, h]⟩, by simp [GetBounds, h]⟩
  | ok q =>
      exact ⟨Or.inl ⟨q, rfl⟩, by simp [GetBounds, h]⟩

/-- `SetBounds`: all five extractions succeed or the call escapes with the
first extraction exception. -/
theorem setBounds_extraction_cases (sys : SysState) (args : EncodableMap) :
    (((∃ q, getDoubleArg args ("devicePixelRatio") = Except.ok q)
        ∧ (∃ q, getDoubleArg args ("x") = Except.ok q)
        ∧ (∃ q, getDoubleArg args ("y") = Except.ok q)
        ∧ (∃ q, getDoubleArg args ("width") = Except.ok q)
        ∧ (∃ q, getDoubleArg args ("height") = Except.ok q))
      ∨ ∃ e, SetBounds sys args = CallResult.uncaughtException e)
  ∧ SetBounds sys args ≠ CallResult.invalidArgument := by
  cases h1 : getDoubleArg args ("devicePixelRatio") with
  | error e => exact ⟨Or.inr ⟨e, by simp [SetBounds, h1]⟩, by simp [SetBounds, h1]⟩
  | ok q1 =>
    cases h2 : getDoubleArg args ("x") with
    | error e =>
        exact ⟨Or.inr ⟨e, by simp [SetBounds, h1, h2]⟩, by simp [SetBounds, h1, h2]⟩
    | ok q2 =>
      cases h3 : getDoubleArg args ("y") with
      | error e =>
          exact ⟨Or.inr ⟨e, by simp [SetBounds, h1, h2, h3]⟩,
            by simp [SetBounds, h1, h2, h3]⟩
      | ok q3 =>
        cases h4 : getDoubleArg args ("width") with
        | error e =>
            exact ⟨Or.inr ⟨e, by simp [SetBounds, h1, h2, h3, h4]⟩,
              by simp [SetBounds, h1, h2, h3, h4]⟩
        | ok q4 =>
          cases h5 : getDoubleArg args ("height") with
          | error e =>
              exact ⟨Or.inr ⟨e, by simp [SetBounds, h1, h2, h3, h4, h5]⟩,
                by simp [SetBounds, h1, h2, h3, h4, h5]⟩
          | ok q5 =>
              exact ⟨Or.inl ⟨⟨q1, rfl⟩, ⟨q2, rfl⟩, ⟨q3, rfl⟩, ⟨q4, rfl⟩, ⟨q5, rfl⟩⟩,
                by simp [SetBounds, h1, h2, h3, h4, h5]⟩

/-- `SetMinimumSize`: all three extractions succeed or the call escapes
with the first extraction exception. -/
theorem setMinimumSize_extraction_cases (a : AdapterState) (args : EncodableMap) :
    (((∃ q, getDoubleArg args ("devicePixelRatio") = Except.ok q)
        ∧ (∃ q, getDoubleArg args ("width") = Except.ok q)
        ∧ (∃ q, getDoubleArg args ("height") = Except.ok q))
      ∨ ∃ e, SetMinimumSize a args = CallResult.uncaughtException e)
  ∧ SetMinimumSize a args ≠ CallResult.invalidArgument := by
  cases h1 : getDoubleArg args ("devicePixelRatio") with
  | error e =>
      exact ⟨Or.inr ⟨e, by simp [SetMinimumSize, h1]⟩, by simp [SetMinimumSize, h1]⟩
  | ok q1 =>
    cases h2 : getDoubleArg args ("width") with
    | error e =>
        exact ⟨Or.inr ⟨e, by simp [SetMinimumSize, h1, h2]⟩,
          by simp [SetMinimumSize, h1, h2]⟩
    | ok q2 =>
      cases h3 : getDoubleArg args ("height") with
      | error e =>
          exact ⟨Or.inr ⟨e, by simp [SetMinimumSize, h1, h2, h3]⟩,
            by simp [SetMinimumSize, h1, h2, h3]⟩
      | ok q3 =>
          exact ⟨Or.inl ⟨⟨q1, rfl⟩, ⟨q2, rfl⟩, ⟨q3, rfl⟩⟩,
            by simp [SetMinimumSize, h1, h2, h3]⟩

/-- `SetMaximumSize`: all three extractions succeed or the call escapes
with the first extraction exception. -/
theorem setMaximumSize_extraction_cases (a : AdapterState) (args : EncodableMap) :
    (((∃ q, getDoubleArg args ("devicePixelRatio") = Except.ok q)
        ∧ (∃ q, getDoubleArg args ("width") = Except.ok q)
        ∧ (∃ q, getDoubleArg args ("height") = Except.ok q))
      ∨ ∃ e, SetMaximumSize a args = CallResult.uncaughtException e)
  ∧ SetMaximumSize a args ≠ CallResult.invalidArgument := by
  cases h1 : getDoubleArg args ("devicePixelRatio") with
  | error e =>
      exact ⟨Or.inr ⟨e, by simp [SetMaximumSize, h1]⟩, by simp [SetMaximumSize, h1]⟩
  | ok q1 =>
    cases h2 : getDoubleArg args ("width") with
    | error e =>
        exact ⟨Or.inr ⟨e, by simp [SetMaximumSize, h1, h2]⟩,
          by simp [SetMaximumSize, h1, h2]⟩
    | ok q2 =>
      cases h3 : getDoubleArg args ("height") with
      | error e =>
          exact ⟨Or.inr ⟨e, by simp [SetMaximumSize, h1, h2, h3]⟩,
            by simp [SetMaximumSize, h1, h2, h3]⟩
      | ok q3 =>
          exact ⟨Or.inl ⟨⟨q1, rfl⟩, ⟨q2, rfl⟩, ⟨q3, rfl⟩⟩,
            by simp [SetMaximumSize, h1, h2, h3]⟩

/-- `SetAlwaysOnTop`: extraction succeeds or the call escapes. -/
theorem setAlwaysOnTop_extraction_cases (sys : SysState) (args : EncodableMap) :
    ((∃ flag, getBoolArg args ("isAlwaysOnTop") = Except.ok flag)
      ∨ ∃ e, SetAlwaysOnTop sys args = CallResult.uncaughtException e)
  ∧ SetAlwaysOnTop sys args ≠ CallResult.invalidArgument := by
  cases h : getBoolArg args ("isAlwaysOnTop") with
  | error e =>
      exact ⟨Or.inr ⟨e, by simp [SetAlwaysOnTop, h]⟩, by simp [SetAlwaysOnTop, h]⟩
  | ok flag =>
      exact ⟨Or.inl ⟨flag, rfl⟩, by simp [SetAlwaysOnTop, h]⟩

/-- `SetTitle`: extraction succeeds or the call escapes. -/
theorem setTitle_extraction_cases (sys : SysState) (args : EncodableMap) :
    ((∃ t, getStringArg args ("title") = Except.ok t)
      ∨ ∃ e, SetTitle sys args = CallResult.uncaughtException e)
  ∧ SetTitle sys args ≠ CallResult.invalidArgument := by
  cases h : getStringArg args ("title") with
  | error e =>
      exact ⟨Or.inr ⟨e, by simp [SetTitle, h]⟩, by simp [SetTitle, h]⟩
  | ok t =>
      exact ⟨Or.inl ⟨t, rfl⟩, by simp [SetTitle, h]⟩

/-- C2 counterexample: `SetFullScreen` invoked with an empty argument map
escapes with the `std::out_of_range` thrown by `args.at` (the process
crashes on the unhandled exception), and invoked with `isFullScreen` bound
to a double it escapes with `std::bad_variant_access`; in neither case is
a structured InvalidArgument error produced. -/
theorem missing_arg_crashes_counterexample :
    (SetFullScreen sampleSys sampleAdapter ([] : EncodableMap)
      = CallResult.uncaughtException CppException.outOfRange)
  ∧ (SetFullScreen sampleSys sampleAdapter
      ([("isFullScreen", EncodableValue.d 1)] : EncodableMap)
      = CallResult.uncaughtException CppException.badVariantAccess)
  ∧ (SetFullScreen sampleSys sampleAdapter ([] : EncodableMap)
      ≠ CallResult.invalidArgument) := by
  have h0 : SetFullScreen sampleSys sampleAdapter ([] : EncodableMap)
      = CallResult.uncaughtException CppException.outOfRange := rfl
  refine ⟨h0, rfl, ?_⟩
  rw [h0]
  simp

/-- C2 (amended): for every operation with required arguments
(`SetFullScreen`, `GetBounds`, `SetBounds`, `SetMinimumSize`,
`SetMaximumSize`, `SetAlwaysOnTop`, `SetTitle`), an invocation whose
argument map is missing a required key or holds a wrongly-typed value
escapes with the unhandled extraction exception (`std::out_of_range` or
`std::bad_variant_access`) - terminating the process - rather than
returning a structured InvalidArgument error or proceeding with a default
value: no invocation ever yields `invalidArgument`, and whenever any
required extraction fails the invocation yields `uncaughtException`. -/
theorem invalid_args_escape_as_exceptions (sys : SysState) (a : AdapterState)
    (args : EncodableMap) :
    ((SetFullScreen sys a args ≠ CallResult.invalidArgument)
      ∧ (GetBounds sys args ≠ CallResult.invalidArgument)
      ∧ (SetBounds sys args ≠ CallResult.invalidArgument)
      ∧ (SetMinimumSize a args ≠ CallResult.invalidArgument)
      ∧ (SetMaximumSize a args ≠ CallResult.invalidArgument)
      ∧ (SetAlwaysOnTop sys args ≠ CallResult.invalidArgument)
      ∧ (SetTitle sys args ≠ CallResult.invalidArgument))
  ∧ ((∃ flag, getBoolArg args ("isFullScreen") = Except.ok flag)
      ∨ ∃ e, SetFullScreen sys a args = CallResult.uncaughtException e)
  ∧ ((∃ q, getDoubleArg args ("devicePixelRatio") = Except.ok q)
      ∨ ∃ e, GetBounds sys args = CallResult.uncaughtException e)
  ∧ (((∃ q, getDoubleArg args ("devicePixelRatio") = Except.ok q)
        ∧ (∃ q, getDoubleArg args ("x") = Except.ok q)
        ∧ (∃ q, getDoubleArg args ("y") = Except.ok q)
        ∧ (∃ q, getDoubleArg args ("width") = Except.ok q)
        ∧ (∃ q, getDoubleArg args ("height") = Except.ok q))
      ∨ ∃ e, SetBounds sys args = CallResult.uncaughtException e)
  ∧ (((∃ q, getDoubleArg args ("devicePixelRatio") = Except.ok q)
        ∧ (∃ q, getDoubleArg args ("width") = Except.ok q)
        ∧ (∃ q, getDoubleArg args ("height") = Except.ok q))
      ∨ ∃ e, SetMinimumSize a args = CallResult.uncaughtException e)
  ∧ (((∃ q, getDoubleArg args ("devicePixelRatio") = Except.ok q)
        ∧ (∃ q, getDoubleArg args ("width") = Except.ok q)
        ∧ (∃ q, getDoubleArg args ("height") = Except.ok q))
      ∨ ∃ e, SetMaximumSize a args = CallResult.uncaughtException e)
  ∧ ((∃ flag, getBoolArg args ("isAlwaysOnTop") = Except.ok flag)
      ∨ ∃ e, SetAlwaysOnTop sys args = CallResult.uncaughtException e)
  ∧ ((∃ t, getStringArg args ("title") = Except.ok t)
      ∨ ∃ e, SetTitle sys args = CallResult.uncaughtException e) :=
  ⟨⟨(setFullScreen_extraction_cases sys a args).2,
      (getBounds_extraction_cases sys args).2,
      (setBounds_extraction_cases sys args).2,
      (setMinimumSize_extraction_cases a args).2,
      (setMaximumSize_extraction_cases a args).2,
      (setAlwaysOnTop_extraction_cases sys args).2,
      (setTitle_extraction_cases sys args).2⟩,
    (setFullScreen_extraction_cases sys a args).1,
    (getBounds_extraction_cases sys args).1,
    (setBounds_extraction_cases sys args).1,
    (setMinimumSize_extraction_cases a args).1,
    (setMaximumSize_extraction_cases a args).1,
    (setAlwaysOnTop_extraction_cases sys args).1,
    (setTitle_extraction_cases sys args).1⟩

end NativeWindow
